import Mathlib

/-!
Shallow embedding of the wtrc weather CLI core (location directory,
day-partitioned cache, Tiempo XML forecast parser, acquisition
orchestrator), translated from the C sources:
  src/libutils.c, src/libweather.c, src/libweather_locations.h,
  src/libweather_cache.c, src/libweather_tiempo.c, src/libnet.c.

Modelling conventions:
* C strings (`gchar *`) are `List Char` (`CStr`); the model is NUL-free,
  matching the fact that all strings handled here are NUL-terminated text.
* C `int` is `Int` together with the explicit 32-bit bounds `INT_MIN` /
  `INT_MAX` checked exactly where the source checks them (`str2int`).
* C `double` values are abstracted: `strtod` is an injected capability
  returning `Option Rat`, and `DBL_MIN` (the smallest positive normalised
  IEEE-754 double, 2^(-1022)) is its exact rational value.
* Undefined behaviour (a NULL pointer being dereferenced) is made explicit:
  a function whose C original can dereference NULL returns `Option _`, with
  `none` marking the undefined-behaviour execution, and `Option`-monadic
  sequencing propagates that marker exactly along the C control flow.
* Fields of `g_malloc`-allocated structs that the source may leave
  unassigned are wrapped in `Field`, whose `undef` constructor models
  indeterminate (never-assigned) memory.
* External capabilities (libxml2 tree building, strtod, the HTTP client,
  the blob filesystem, the current local date and the temp directory) are
  parameters, mirroring the spec's capability interfaces.
-/

namespace Wtrc

/-- C strings (NUL-free model of `gchar *` text). -/
abbrev CStr := List Char

/-- The 32-bit `INT_MAX` used by `str2int` in libutils.c. -/
def INT_MAX : Int := 2147483647

/-- The 32-bit `INT_MIN` sentinel returned by `xmlGetPropInt` (libutils.c). -/
def INT_MIN : Int := -2147483648

/-- Exact rational value of `DBL_MIN`, the sentinel returned by
`xmlGetPropDouble` (libutils.c): the smallest positive normalised double. -/
def DBL_MIN : Rat := 1 / 2 ^ 1022

/-- Numeric value of a list of decimal digit characters (helper for the
strtol model). -/
def digitsVal (ds : List Char) : Nat :=
  ds.foldl (fun acc c => acc * 10 + (c.toNat - 48)) 0

/-- Split an optional single leading sign, as `strtol` does after the
wrapper has rejected leading whitespace. Returns the sign and the rest. -/
def splitSign : CStr → (Int × CStr)
  | '-' :: rest => (-1, rest)
  | '+' :: rest => (1, rest)
  | s => (1, s)

/-- Model of `str2int` (libutils.c, base 10): rejects the empty string and a
leading whitespace character up front, runs `strtol`, rejects overflow past
`INT_MAX`, underflow past `INT_MIN`, and any trailing non-digit garbage
(`*end != '\0'`). `some v` is `STR2INT_SUCCESS` with `*out = v`; `none`
collapses the three failure enumerators, which `xmlGetPropInt` treats
identically. -/
def str2int (s : CStr) : Option Int :=
  match s with
  | [] => none
  | c :: _ =>
    if c.isWhitespace then none
    else
      let (sign, rest) := splitSign s
      let digs := rest.takeWhile (·.isDigit)
      let tail := rest.dropWhile (·.isDigit)
      if digs = [] then none
      else if tail ≠ [] then none
      else
        let v : Int := sign * (digitsVal digs : Int)
        if v > INT_MAX then none
        else if v < INT_MIN then none
        else some v

/-- Model of `g_utf8_strup` on one character. The registry names and the
Tiempo location codes are plain ASCII, for which Unicode upper-casing is
exactly the ASCII mapping `Char.toUpper`. -/
def gUpperChar (c : Char) : Char := c.toUpper

/-- Model of `g_utf8_strup`: upper-case every character. -/
def gUtf8Strup (s : CStr) : CStr := s.map gUpperChar

/-! ## Location directory (libweather.c, libweather_locations.h) -/

/-- A `wtr_location` record: name (stored upper case), province, WGS84
coordinates (the exact decimal literals of the source, as rationals) and the
Tiempo API code. -/
structure wtr_location where
  name : CStr
  province : CStr
  latitude : Rat
  longitude : Rat
  code : CStr
deriving DecidableEq, Repr

/-- The three search modes of `wtr_location_search` (libweather.h). -/
inductive wtr_location_search_type where
  | WTR_SEARCH_LOCATION_PARTIAL_NAME
  | WTR_SEARCH_LOCATION_EXACT_NAME
  | WTR_SEARCH_LOCATION_EXACT_CODE
deriving DecidableEq, Repr

/-- The compiled-in registry `WTR_LOCATIONS` (libweather_locations.h),
verbatim: five Italian locations in source order. -/
def WTR_LOCATIONS : List wtr_location :=
  [⟨"ACQUASPARTA".toList, "TR".toList, mkRat 426911449 10000000, mkRat 125464788 10000000, "28756".toList⟩,
   ⟨"MONTECASTRILLI".toList, "TR".toList, mkRat 42652434 1000000, mkRat 12488567 1000000, "30429".toList⟩,
   ⟨"ORVIETO".toList, "TR".toList, mkRat 427186152 10000000, mkRat 121087907 10000000, "30625".toList⟩,
   ⟨"TERNI".toList, "TR".toList, mkRat 425641417 10000000, mkRat 126405466 10000000, "31553".toList⟩,
   ⟨"PERUGIA".toList, "PG".toList, mkRat 431119613 10000000, mkRat 123890104 10000000, "30721".toList⟩]

/-- Model of `wtr_location_search` (libweather.c lines 44-57): upper-case the
query once with `g_utf8_strup`, then linearly scan `WTR_LOCATIONS`, appending
(in registry order) every entry whose name contains the upper-cased query
(`strstr`, PARTIAL_NAME), whose name equals it (`g_strcmp0`, EXACT_NAME), or
whose code equals it (`g_strcmp0`, EXACT_CODE). Pure: no side effects. -/
def wtr_location_search (query : CStr) (search_type : wtr_location_search_type) :
    List wtr_location :=
  let nameUpper := gUtf8Strup query
  WTR_LOCATIONS.filter (fun L =>
    match search_type with
    | .WTR_SEARCH_LOCATION_PARTIAL_NAME => decide (nameUpper <:+: L.name)
    | .WTR_SEARCH_LOCATION_EXACT_NAME => decide (L.name = nameUpper)
    | .WTR_SEARCH_LOCATION_EXACT_CODE => decide (L.code = nameUpper))

/-- Spec-side predicate for claim C8: the location name contains the query
case-insensitively (both sides case-folded). -/
def nameContainsCI (name q : CStr) : Bool :=
  decide ((q.map Char.toUpper) <:+: (name.map Char.toUpper))

/-! ## XML tree capability (libxml2, consumed not implemented) -/

/-- A node of the document tree produced by the XML capability: element name,
attribute list and children in document order. -/
structure XNode where
  name : String
  attrs : List (String × CStr)
  children : List XNode
deriving Repr

/-- Model of libxml2's `xmlGetProp`: the value of the named attribute, or
`none` for a NULL return when the attribute is absent. -/
def xmlGetProp (node : XNode) (property : String) : Option CStr :=
  (node.attrs.find? (fun a => a.1 = property)).map Prod.snd

/-- Model of `xmlGetPropInt` (libutils.c lines 100-108). When the attribute
is present, `str2int` converts it and every conversion failure yields the
`INT_MIN` sentinel (`some INT_MIN`). When the attribute is absent,
`xmlGetProp` returns NULL and the source passes that NULL to `str2int`,
which dereferences `s[0]`: undefined behaviour, modelled as `none`. -/
def xmlGetPropInt (node : XNode) (property : String) : Option Int :=
  match xmlGetProp node property with
  | none => none
  | some str => some ((str2int str).getD INT_MIN)

/-- External capabilities consumed by the parser: the libxml2 tree builder
(`xmlReadMemory`, `none` on syntax error) and `strtod` (`none` when the
string is not a valid double, abstracting the C float grammar; `str2double`
additionally rejects strings that `strtod` does not consume entirely, which
the capability folds in). -/
structure Caps where
  xmlRead : CStr → Option XNode
  s2d : CStr → Option Rat

/-- Model of `xmlGetPropDouble` (libutils.c lines 120-128): like
`xmlGetPropInt` but through `str2double`, with the `DBL_MIN` sentinel on
conversion failure; an absent attribute again reaches `str2double` as NULL
and is dereferenced — undefined behaviour, modelled as `none`. -/
def xmlGetPropDouble (caps : Caps) (node : XNode) (property : String) : Option Rat :=
  match xmlGetProp node property with
  | none => none
  | some str => some ((caps.s2d str).getD DBL_MIN)

/-! ## Dates (libutils.c `parseDateTime`) -/

/-- Abstract model of a `GDateTime` produced by `parseDateTime`: the source
string and the strptime format it was parsed under. The claims never inspect
the calendar value, only how the result is threaded through the structs, so
the token records exactly the inputs. `parseDateTime` on a non-NULL string
always returns a `GDateTime` (a failed `strptime` leaves the zero-initialised
`struct tm`, which `mktime` still converts). -/
structure GDT where
  raw : CStr
  fmt : String
deriving DecidableEq, Repr

/-- Model of `parseDateTime` (libutils.c lines 139-149) on a non-NULL
input. -/
def parseDateTime (str : CStr) (format : String) : GDT := ⟨str, format⟩

/-- Abstract model of the hour timestamp built by `wtr_forecast_parse_hour`:
`g_date_time_new_local` applied to the enclosing day's date components and
the hour/minute parsed from the hour's `value` attribute. -/
structure TStamp where
  dayDate : GDT
  timeRaw : CStr
deriving DecidableEq, Repr

/-! ## Forecast data model (libweather.h) -/

/-- One field of a `g_malloc`-allocated struct. `undef` models memory the
source never assigns (indeterminate contents); `val` models an assigned
value. -/
inductive Field (α : Type) where
  | undef
  | val (a : α)
deriving DecidableEq, Repr

/-- Whether a field has been assigned. -/
def Field.isVal {α : Type} : Field α → Bool
  | .undef => false
  | .val _ => true

/-- A `wtr_forecast_hour`. `tstamp` is a `GDateTime *` initialised to NULL
and then always reassigned (`Option TStamp`, `none` = NULL). `wind_dir` is
initialised to NULL and reassigned only by a `wind` child (its inner
`Option` is the NULL-ness of `xmlGetProp(child, "dir")`). The numeric
fields are never pre-initialised. -/
structure wtr_forecast_hour where
  tstamp : Field (Option TStamp)
  weather : Field Int
  temp : Field Int
  wind_speed : Field Int
  wind_dir : Field (Option CStr)
  rain : Field Rat
  humidity : Field Int
  pressure : Field Int
deriving DecidableEq, Repr

/-- A `wtr_forecast_day`. `hours` is initialised to the empty list
(`day->hours = NULL`) before anything can fail, so it is a plain list;
`date` is assigned right after, before the child loop; the numeric summary
fields are never pre-initialised. -/
structure wtr_forecast_day where
  date : Field GDT
  weather : Field Int
  temp_min : Field Int
  temp_max : Field Int
  wind_speed : Field Int
  rain : Field Rat
  humidity : Field Int
  pressure : Field Int
  hours : List wtr_forecast_hour
deriving DecidableEq, Repr

/-- A `wtr_forecast`: the ordered list of daily forecasts. -/
structure wtr_forecast where
  days : List wtr_forecast_day
deriving DecidableEq, Repr

/-! ## Tiempo XML parser (libweather_tiempo.c) -/

/-- The freshly `g_malloc`-ed hour record after the two explicit NULL
initialisations of lines 62-63 and before any other assignment. -/
def hourInit : wtr_forecast_hour :=
  { tstamp := .val none, weather := .undef, temp := .undef, wind_speed := .undef,
    wind_dir := .val none, rain := .undef, humidity := .undef, pressure := .undef }

/-- The child loop of `wtr_forecast_parse_hour` (lines 72-87): one branch per
known tag, unknown tags ignored; `none` propagates the undefined behaviour of
`xmlGetPropInt`/`xmlGetPropDouble` on an absent `value` attribute. -/
def parseHourChildren (caps : Caps) : List XNode → wtr_forecast_hour →
    Option wtr_forecast_hour
  | [], hour => some hour
  | child :: rest, hour =>
    if child.name = "symbol" then
      match xmlGetPropInt child "value" with
      | none => none
      | some i => parseHourChildren caps rest { hour with weather := .val i }
    else if child.name = "temp" then
      match xmlGetPropInt child "value" with
      | none => none
      | some i => parseHourChildren caps rest { hour with temp := .val i }
    else if child.name = "wind" then
      match xmlGetPropInt child "value" with
      | none => none
      | some i => parseHourChildren caps rest
          { hour with wind_dir := .val (xmlGetProp child "dir"), wind_speed := .val i }
    else if child.name = "rain" then
      match xmlGetPropDouble caps child "value" with
      | none => none
      | some d => parseHourChildren caps rest { hour with rain := .val d }
    else if child.name = "humidity" then
      match xmlGetPropInt child "value" with
      | none => none
      | some i => parseHourChildren caps rest { hour with humidity := .val i }
    else if child.name = "pressure" then
      match xmlGetPropInt child "value" with
      | none => none
      | some i => parseHourChildren caps rest { hour with pressure := .val i }
    else parseHourChildren caps rest hour

/-- Model of `wtr_forecast_parse_hour` (libweather_tiempo.c lines 60-89).
The hour's own `value` attribute is read with plain `xmlGetProp` and passed
to `parseDateTime`; if it is absent the NULL reaches `strptime` — undefined
behaviour, `none`. Otherwise the timestamp combines the enclosing day's date
(read from the partially built day struct) with the parsed time, and the
child loop fills the remaining fields. -/
def wtr_forecast_parse_hour (caps : Caps) (xmlHour : XNode) (dayDate : Field GDT) :
    Option wtr_forecast_hour :=
  match xmlGetProp xmlHour "value" with
  | none => none
  | some value =>
    match dayDate with
    | .undef => none
    | .val dt =>
      parseHourChildren caps xmlHour.children
        { hourInit with tstamp := .val (some ⟨dt, value⟩) }

/-- The child loop of `wtr_forecast_parse_day` (lines 108-127): one branch
per known tag, `hour` children parsed and appended (`g_list_append`) in
document order, unknown tags ignored. -/
def parseDayChildren (caps : Caps) : List XNode → wtr_forecast_day →
    Option wtr_forecast_day
  | [], day => some day
  | child :: rest, day =>
    if child.name = "symbol" then
      match xmlGetPropInt child "value" with
      | none => none
      | some i => parseDayChildren caps rest { day with weather := .val i }
    else if child.name = "tempmin" then
      match xmlGetPropInt child "value" with
      | none => none
      | some i => parseDayChildren caps rest { day with temp_min := .val i }
    else if child.name = "tempmax" then
      match xmlGetPropInt child "value" with
      | none => none
      | some i => parseDayChildren caps rest { day with temp_max := .val i }
    else if child.name = "wind" then
      match xmlGetPropInt child "value" with
      | none => none
      | some i => parseDayChildren caps rest { day with wind_speed := .val i }
    else if child.name = "rain" then
      match xmlGetPropDouble caps child "value" with
      | none => none
      | some d => parseDayChildren caps rest { day with rain := .val d }
    else if child.name = "humidity" then
      match xmlGetPropInt child "value" with
      | none => none
      | some i => parseDayChildren caps rest { day with humidity := .val i }
    else if child.name = "pressure" then
      match xmlGetPropInt child "value" with
      | none => none
      | some i => parseDayChildren caps rest { day with pressure := .val i }
    else if child.name = "hour" then
      match wtr_forecast_parse_hour caps child day.date with
      | none => none
      | some hour => parseDayChildren caps rest { day with hours := day.hours ++ [hour] }
    else parseDayChildren caps rest day

/-- Model of `wtr_forecast_parse_day` (libweather_tiempo.c lines 101-129).
`day->hours` is set to NULL, then the day's own `value` attribute is read;
if absent, the NULL reaches `strptime` — undefined behaviour, `none`.
Otherwise `date` is assigned and the child loop runs. -/
def wtr_forecast_parse_day (caps : Caps) (xmlDay : XNode) : Option wtr_forecast_day :=
  match xmlGetProp xmlDay "value" with
  | none => none
  | some value =>
    parseDayChildren caps xmlDay.children
      { date := .val (parseDateTime value "%Y%m%d"), weather := .undef,
        temp_min := .undef, temp_max := .undef, wind_speed := .undef,
        rain := .undef, humidity := .undef, pressure := .undef, hours := [] }

/-- The parse failures `wtr_forecast_parse` reports on stderr before
returning NULL: xml syntax error, missing `report` root, missing `location`
first child. -/
inductive ParseError where
  | syntaxError
  | missingReport
  | missingLocation
deriving DecidableEq, Repr

/-- Outcome of `wtr_forecast_parse`: a forecast, a NULL return with its
diagnostic, or the undefined-behaviour executions of the source (NULL
dereference). -/
inductive ParseResult where
  | ok (f : wtr_forecast)
  | err (e : ParseError)
  | crash
deriving DecidableEq, Repr

/-- The day loop of `wtr_forecast_parse` (lines 160-166): children of the
`location` element whose tag is not `day` are skipped; each `day` child is
parsed and appended in document order. -/
def parseDays (caps : Caps) : List XNode → List wtr_forecast_day →
    Option (List wtr_forecast_day)
  | [], acc => some acc
  | child :: rest, acc =>
    if child.name ≠ "day" then parseDays caps rest acc
    else
      match wtr_forecast_parse_day caps child with
      | none => none
      | some day => parseDays caps rest (acc ++ [day])

/-- Model of `wtr_forecast_parse` (libweather_tiempo.c lines 141-169):
read the tree (`xmlReadMemory`, NULL = syntax error), check the root is
`report`, check its first child is `location` (if the root has no children
the source dereferences the NULL `location` pointer — crash), then collect
the `day` children. -/
def wtr_forecast_parse (caps : Caps) (content : CStr) : ParseResult :=
  match caps.xmlRead content with
  | none => .err .syntaxError
  | some report =>
    if report.name ≠ "report" then .err .missingReport
    else
      match report.children with
      | [] => .crash
      | location :: _ =>
        if location.name ≠ "location" then .err .missingLocation
        else
          match parseDays caps location.children [] with
          | none => .crash
          | some days => .ok ⟨days⟩

/-! ## Day-partitioned cache (libweather_cache.c) -/

/-- The `MAX_WTR_CACHE_TEMP_DIR_LENGTH` bound: every path is built with
`g_snprintf(buf, 1024, ...)`, which keeps at most 1023 characters. -/
def snprintf1024 (s : CStr) : CStr := s.take 1023

/-- Model of `wtr_cache_dir` (lines 23-34): `<tmpdir>/libweather` (the
directory-creation side effect is idempotent and invisible to the blob
store model). -/
def wtr_cache_dir (tmpDir : CStr) : CStr :=
  snprintf1024 (tmpDir ++ "/libweather".toList)

/-- Model of `wtr_cache_dir_today` (lines 36-52): the day partition
`<tmpdir>/libweather/<today>`, where `today` is the current local date
formatted `%Y%m%d`. -/
def wtr_cache_dir_today (tmpDir today : CStr) : CStr :=
  snprintf1024 (wtr_cache_dir tmpDir ++ '/' :: today)

/-- Model of `wtr_cache_temp_file` (lines 54-62): the blob path
`<tmpdir>/libweather/<today>/<driver>-<location_code>`. -/
def wtr_cache_temp_file (tmpDir today driver location_code : CStr) : CStr :=
  snprintf1024 (wtr_cache_dir_today tmpDir today ++ '/' :: (driver ++ '-' :: location_code))

/-- The blob store capability: file path to contents, `none` when the file
does not exist (`g_file_get_contents` failure). -/
def Store := CStr → Option CStr

/-- Model of `wtr_cache_get` (lines 64-70): read the blob under today's
partition, NULL (`none`) when absent. -/
def wtr_cache_get (fs : Store) (tmpDir today driver location_code : CStr) : Option CStr :=
  fs (wtr_cache_temp_file tmpDir today driver location_code)

/-- Model of `wtr_cache_set` (lines 72-77): write/overwrite the blob under
today's partition (`g_file_set_contents` with length -1 writes the whole
NUL-terminated string); returns the updated store. -/
def wtr_cache_set (fs : Store) (tmpDir today driver location_code data : CStr) : Store :=
  fun p => if p = wtr_cache_temp_file tmpDir today driver location_code then some data else fs p

/-! ## Acquisition orchestrator (libweather_tiempo.c `wtr_tiempo_forecast_get`) -/

/-- The driver name `WTR_DRIVER_TIEMPO` (libweather_tiempo.h). -/
def WTR_DRIVER_TIEMPO : CStr := "tiempo".toList

/-- The fixed affiliate credential `TIEMPO_AFFILATE_ID` (config.h). -/
def TIEMPO_AFFILATE_ID : CStr := "0123456789abcd".toList

/-- Model of `wtr_tiempo_forecast_url` (lines 43-47): the
`TIEMPO_URL_TEMPLATE` with the location code and affiliate id substituted,
bounded by `g_snprintf(url, 256, ...)`. -/
def wtr_tiempo_forecast_url (code : CStr) : CStr :=
  ("http://api.ilmeteo.net/index.php?api_lang=it&localidad=".toList ++ code
    ++ "&affiliate_id=".toList ++ TIEMPO_AFFILATE_ID ++ "&v=2&h=1".toList).take 255

/-- Model of `net_http_rawdata` (libnet.h): response body, cURL error code
(non-zero means transport failure) and HTTP status code. -/
structure net_http_rawdata where
  buffer : CStr
  curl_code : Nat
  http_code : Nat

/-- The environment of one `wtr_tiempo_forecast_get` call: the parser
capabilities, the blob filesystem, the temp directory (`g_get_tmp_dir`),
the current local date formatted `%Y%m%d`, and the HTTP client capability
(`net_http_get` as a function of the URL). -/
structure Env where
  caps : Caps
  fs : Store
  tmpDir : CStr
  today : CStr
  http : CStr → net_http_rawdata

/-- Final outcome of `wtr_tiempo_forecast_get`, separating the NULL returns
by the diagnostic branch that produced them (curl error, HTTP status error,
parse failure printed inside `wtr_forecast_parse`). -/
inductive AcqResult where
  | ok (f : wtr_forecast)
  | parseFailed (e : ParseError)
  | transportError (curl_code : Nat)
  | httpStatusError (http_code : Nat)
  | crash
deriving DecidableEq, Repr

/-- Injection of a parse result into an acquisition outcome (the cached and
fresh parse results are returned verbatim, a NULL parse staying NULL). -/
def ParseResult.toAcq : ParseResult → AcqResult
  | .ok f => .ok f
  | .err e => .parseFailed e
  | .crash => .crash

/-- Observable outcome of one acquisition: the returned value, the final
blob store, and how many `net_http_get` calls were made. -/
structure AcqOutcome where
  result : AcqResult
  fs : Store
  httpCalls : Nat

/-- Model of `wtr_tiempo_forecast_get` (libweather_tiempo.c lines 180-206):
cache lookup first; on a hit, parse the cached bytes and return that result
(no network call, no cache write); on a miss, perform the HTTP GET, fail on
a cURL error or a status other than 200 without caching, otherwise parse the
body and — only when the parse returned a forecast — write the same body to
the cache. -/
def wtr_tiempo_forecast_get (env : Env) (code : CStr) : AcqOutcome :=
  match wtr_cache_get env.fs env.tmpDir env.today WTR_DRIVER_TIEMPO code with
  | some cached_xml =>
    { result := (wtr_forecast_parse env.caps cached_xml).toAcq
      fs := env.fs, httpCalls := 0 }
  | none =>
    let url := wtr_tiempo_forecast_url code
    let data := env.http url
    if data.curl_code ≠ 0 then
      { result := .transportError data.curl_code, fs := env.fs, httpCalls := 1 }
    else if data.http_code ≠ 200 then
      { result := .httpStatusError data.http_code, fs := env.fs, httpCalls := 1 }
    else
      match wtr_forecast_parse env.caps data.buffer with
      | .ok f =>
        { result := .ok f
          fs := wtr_cache_set env.fs env.tmpDir env.today WTR_DRIVER_TIEMPO code data.buffer
          httpCalls := 1 }
      | .err e => { result := .parseFailed e, fs := env.fs, httpCalls := 1 }
      | .crash => { result := .crash, fs := env.fs, httpCalls := 1 }

/-! ## Concrete fixtures used by the witness theorems -/

/-- Capabilities whose XML reader rejects everything and whose strtod parses
nothing (every double degrades to the sentinel). -/
def capsE : Caps := ⟨fun _ => none, fun _ => none⟩

/-- The ORVIETO registry entry (third element of `WTR_LOCATIONS`). -/
def ORVIETO : wtr_location :=
  ⟨"ORVIETO".toList, "TR".toList, mkRat 427186152 10000000, mkRat 121087907 10000000,
    "30625".toList⟩

/-- A document whose root element is not `report`. -/
def docNoReport : XNode := ⟨"foo", [], []⟩

/-- A `report` document whose first child is not `location`. -/
def docNoLocation : XNode := ⟨"report", [], [⟨"bar", [], []⟩]⟩

/-- An hour element with a parseable time value and no children. -/
def wHour : XNode := ⟨"hour", [("value", "01:00".toList)], []⟩

/-- A day element carrying eight hour children. -/
def wDay8 : XNode := ⟨"day", [("value", "20180308".toList)], List.replicate 8 wHour⟩

/-- A day element with no children. -/
def wDay0 : XNode := ⟨"day", [("value", "20180309".toList)], []⟩

/-- The location element of the five-day fixture document: five `day`
children, the first two holding eight `hour` children each. -/
def loc5 : XNode := ⟨"location", [], [wDay8, wDay8, wDay0, wDay0, wDay0]⟩

/-- A well-formed five-day document. -/
def doc5 : XNode := ⟨"report", [], [loc5]⟩

/-- A day element whose only child has an unknown tag. -/
def dayU : XNode := ⟨"day", [("value", "20180308".toList)], [⟨"whatever", [], []⟩]⟩

/-- A structurally valid document whose `symbol` day child has an
unparseable numeric `value` attribute. -/
def docSentinel : XNode :=
  ⟨"report", [],
    [⟨"location", [],
      [⟨"day", [("value", "20180308".toList)],
        [⟨"symbol", [("value", "abc".toList)], []⟩]⟩]⟩]⟩

/-- A structurally valid document whose `symbol` day child has no `value`
attribute at all. -/
def docAbsent : XNode :=
  ⟨"report", [],
    [⟨"location", [],
      [⟨"day", [("value", "20180308".toList)],
        [⟨"symbol", [], []⟩]⟩]⟩]⟩

/-- XML capability serving the fixture documents by content string. -/
def capsFix : Caps :=
  ⟨fun c =>
    if c = "doc5".toList then some doc5
    else if c = "noreport".toList then some docNoReport
    else if c = "nolocation".toList then some docNoLocation
    else if c = "sentinel".toList then some docSentinel
    else if c = "absent".toList then some docAbsent
    else none,
   fun _ => none⟩

/-- An environment whose cache already holds unparseable bytes for the
ORVIETO key (the HTTP client would succeed, showing it is not consulted). -/
def envHit : Env :=
  { caps := capsE
    fs := fun p =>
      if p = wtr_cache_temp_file "/tmp".toList "20180308".toList WTR_DRIVER_TIEMPO
          "30625".toList then some "junk".toList else none
    tmpDir := "/tmp".toList
    today := "20180308".toList
    http := fun _ => ⟨"doc5".toList, 0, 200⟩ }

/-- An environment with an empty cache whose HTTP client returns the valid
five-day document with status 200. -/
def envOk : Env :=
  { caps := capsFix, fs := fun _ => none, tmpDir := "/tmp".toList
    today := "20180308".toList, http := fun _ => ⟨"doc5".toList, 0, 200⟩ }

/-- An environment with an empty cache whose HTTP client fails with cURL
error 7 (connection refused). -/
def envCurl : Env :=
  { caps := capsFix, fs := fun _ => none, tmpDir := "/tmp".toList
    today := "20180308".toList, http := fun _ => ⟨[], 7, 0⟩ }

/-- An environment with an empty cache whose HTTP client answers with
status 500. -/
def envStatus : Env :=
  { caps := capsFix, fs := fun _ => none, tmpDir := "/tmp".toList
    today := "20180308".toList, http := fun _ => ⟨[], 0, 500⟩ }

/-- An environment with an empty cache whose HTTP client answers 200 with a
body the XML capability rejects. -/
def envBadBody : Env :=
  { caps := capsFix, fs := fun _ => none, tmpDir := "/tmp".toList
    today := "20180308".toList, http := fun _ => ⟨"garbage".toList, 0, 200⟩ }

/-- Days of a parse result (empty on failure); lets witness statements name
the concrete parsed forecast. -/
def ParseResult.daysOf : ParseResult → List wtr_forecast_day
  | .ok f => f.days
  | _ => []

/-! ## Helper lemmas: ASCII case folding -/

theorem char_toNat_ofNat {n : Nat} (h : n < 55296) : (Char.ofNat n).toNat = n := by
  rw [Char.ofNat, dif_pos (Or.inl h)]
  rfl

theorem gUpperChar_eq_digit {c d : Char} (h48 : 48 ≤ d.toNat) (h57 : d.toNat ≤ 57) :
    gUpperChar c = d ↔ c = d := by
  show (if c.toNat ≥ 97 ∧ c.toNat ≤ 122 then Char.ofNat (c.toNat - 32) else c) = d ↔ c = d
  split_ifs with hc
  · constructor
    · intro h
      exfalso
      have h1 : (Char.ofNat (c.toNat - 32)).toNat = c.toNat - 32 :=
        char_toNat_ofNat (by omega)
      rw [h] at h1
      omega
    · intro h
      subst h
      exfalso
      omega
  · exact Iff.rfl

theorem map_gUpperChar_eq_digits (q : CStr) :
    ∀ c : CStr, (∀ ch ∈ c, 48 ≤ ch.toNat ∧ ch.toNat ≤ 57) →
      (c = q.map gUpperChar ↔ c = q) := by
  induction q with
  | nil => intro c _; simp
  | cons a q ih =>
    intro c hc
    cases c with
    | nil => simp
    | cons x c' =>
      have hx := hc x (List.mem_cons_self _ _)
      have hrest := ih c' (fun ch h => hc ch (List.mem_cons_of_mem _ h))
      simp only [List.map_cons, List.cons.injEq]
      constructor
      · rintro ⟨h1, h2⟩
        exact ⟨((gUpperChar_eq_digit hx.1 hx.2).mp h1.symm).symm, hrest.mp h2⟩
      · rintro ⟨h1, h2⟩
        exact ⟨((gUpperChar_eq_digit hx.1 hx.2).mpr h1.symm).symm, hrest.mpr h2⟩

/-! ## Helper lemmas: parser loops -/

theorem forall_tail {α : Type} {P : α → Prop} {c : α} {rest : List α}
    (h : ∀ x ∈ c :: rest, P x) : ∀ x ∈ rest, P x :=
  fun x hx => h x (List.mem_cons_of_mem _ hx)

/-- Field accounting for the hour child loop: the timestamp is never touched,
an assigned wind direction stays assigned, and a field whose tag never occurs
among the children keeps its incoming value. -/
theorem parseHourChildren_spec (caps : Caps) :
    ∀ (l : List XNode) (u v : wtr_forecast_hour),
      parseHourChildren caps l u = some v →
      v.tstamp = u.tstamp ∧
      (u.wind_dir.isVal = true → v.wind_dir.isVal = true) ∧
      ((∀ c ∈ l, c.name ≠ "symbol") → v.weather = u.weather) ∧
      ((∀ c ∈ l, c.name ≠ "temp") → v.temp = u.temp) ∧
      ((∀ c ∈ l, c.name ≠ "wind") → v.wind_speed = u.wind_speed ∧ v.wind_dir = u.wind_dir) ∧
      ((∀ c ∈ l, c.name ≠ "rain") → v.rain = u.rain) ∧
      ((∀ c ∈ l, c.name ≠ "humidity") → v.humidity = u.humidity) ∧
      ((∀ c ∈ l, c.name ≠ "pressure") → v.pressure = u.pressure) := by
  intro l
  induction l with
  | nil =>
    intro u v hp
    cases hp
    exact ⟨rfl, fun h => h, fun _ => rfl, fun _ => rfl, fun _ => ⟨rfl, rfl⟩,
      fun _ => rfl, fun _ => rfl, fun _ => rfl⟩
  | cons c rest ih =>
    intro u v hp
    simp only [parseHourChildren] at hp
    split_ifs at hp with hsym htmp hwnd hrn hhum hprs
    · cases hxi : xmlGetPropInt c "value" <;> rw [hxi] at hp
      · cases hp
      ·
        obtain ⟨p1, p2, p3, p4, p5, p6, p7, p8⟩ := ih _ _ hp
        exact ⟨p1, p2, fun hall => absurd hsym (hall c (List.mem_cons_self c rest)),
          fun hall => p4 (forall_tail hall), fun hall => p5 (forall_tail hall),
          fun hall => p6 (forall_tail hall), fun hall => p7 (forall_tail hall),
          fun hall => p8 (forall_tail hall)⟩
    · cases hxi : xmlGetPropInt c "value" <;> rw [hxi] at hp
      · cases hp
      ·
        obtain ⟨p1, p2, p3, p4, p5, p6, p7, p8⟩ := ih _ _ hp
        exact ⟨p1, p2, fun hall => p3 (forall_tail hall),
          fun hall => absurd htmp (hall c (List.mem_cons_self c rest)),
          fun hall => p5 (forall_tail hall), fun hall => p6 (forall_tail hall),
          fun hall => p7 (forall_tail hall), fun hall => p8 (forall_tail hall)⟩
    · cases hxi : xmlGetPropInt c "value" <;> rw [hxi] at hp
      · cases hp
      ·
        obtain ⟨p1, p2, p3, p4, p5, p6, p7, p8⟩ := ih _ _ hp
        exact ⟨p1, fun _ => p2 rfl, fun hall => p3 (forall_tail hall),
          fun hall => p4 (forall_tail hall),
          fun hall => absurd hwnd (hall c (List.mem_cons_self c rest)),
          fun hall => p6 (forall_tail hall), fun hall => p7 (forall_tail hall),
          fun hall => p8 (forall_tail hall)⟩
    · cases hxd : xmlGetPropDouble caps c "value" <;> rw [hxd] at hp
      · cases hp
      ·
        obtain ⟨p1, p2, p3, p4, p5, p6, p7, p8⟩ := ih _ _ hp
        exact ⟨p1, p2, fun hall => p3 (forall_tail hall),
          fun hall => p4 (forall_tail hall), fun hall => p5 (forall_tail hall),
          fun hall => absurd hrn (hall c (List.mem_cons_self c rest)),
          fun hall => p7 (forall_tail hall), fun hall => p8 (forall_tail hall)⟩
    · cases hxi : xmlGetPropInt c "value" <;> rw [hxi] at hp
      · cases hp
      ·
        obtain ⟨p1, p2, p3, p4, p5, p6, p7, p8⟩ := ih _ _ hp
        exact ⟨p1, p2, fun hall => p3 (forall_tail hall),
          fun hall => p4 (forall_tail hall), fun hall => p5 (forall_tail hall),
          fun hall => p6 (forall_tail hall),
          fun hall => absurd hhum (hall c (List.mem_cons_self c rest)),
          fun hall => p8 (forall_tail hall)⟩
    · cases hxi : xmlGetPropInt c "value" <;> rw [hxi] at hp
      · cases hp
      ·
        obtain ⟨p1, p2, p3, p4, p5, p6, p7, p8⟩ := ih _ _ hp
        exact ⟨p1, p2, fun hall => p3 (forall_tail hall),
          fun hall => p4 (forall_tail hall), fun hall => p5 (forall_tail hall),
          fun hall => p6 (forall_tail hall), fun hall => p7 (forall_tail hall),
          fun hall => absurd hprs (hall c (List.mem_cons_self c rest))⟩
    · obtain ⟨p1, p2, p3, p4, p5, p6, p7, p8⟩ := ih _ _ hp
      exact ⟨p1, p2, fun hall => p3 (forall_tail hall),
        fun hall => p4 (forall_tail hall), fun hall => p5 (forall_tail hall),
        fun hall => p6 (forall_tail hall), fun hall => p7 (forall_tail hall),
        fun hall => p8 (forall_tail hall)⟩

/-- Field accounting for the day child loop: the date is never touched, the
hours collected are exactly the parses of the `hour` children in document
order appended to the incoming list, and a field whose tag never occurs
among the children keeps its incoming value. -/
theorem parseDayChildren_spec (caps : Caps) :
    ∀ (l : List XNode) (u v : wtr_forecast_day),
      parseDayChildren caps l u = some v →
      v.date = u.date ∧
      (∃ hs, v.hours = u.hours ++ hs ∧
        List.Forall₂ (fun n hr => wtr_forecast_parse_hour caps n u.date = some hr)
          (l.filter (fun c => c.name = "hour")) hs) ∧
      ((∀ c ∈ l, c.name ≠ "symbol") → v.weather = u.weather) ∧
      ((∀ c ∈ l, c.name ≠ "tempmin") → v.temp_min = u.temp_min) ∧
      ((∀ c ∈ l, c.name ≠ "tempmax") → v.temp_max = u.temp_max) ∧
      ((∀ c ∈ l, c.name ≠ "wind") → v.wind_speed = u.wind_speed) ∧
      ((∀ c ∈ l, c.name ≠ "rain") → v.rain = u.rain) ∧
      ((∀ c ∈ l, c.name ≠ "humidity") → v.humidity = u.humidity) ∧
      ((∀ c ∈ l, c.name ≠ "pressure") → v.pressure = u.pressure) := by
  intro l
  induction l with
  | nil =>
    intro u v hp
    cases hp
    exact ⟨rfl, ⟨[], by simp, List.Forall₂.nil⟩, fun _ => rfl, fun _ => rfl,
      fun _ => rfl, fun _ => rfl, fun _ => rfl, fun _ => rfl, fun _ => rfl⟩
  | cons c rest ih =>
    intro u v hp
    simp only [parseDayChildren] at hp
    split_ifs at hp with hsym htmin htmax hwnd hrn hhum hprs hhr
    · cases hxi : xmlGetPropInt c "value" <;> rw [hxi] at hp
      · cases hp
      · obtain ⟨p1, ⟨hs, hap, hfa⟩, p3, p4, p5, p6, p7, p8, p9⟩ := ih _ _ hp
        refine ⟨p1, ⟨hs, hap, ?_⟩, fun hall => absurd hsym (hall c (List.mem_cons_self c rest)),
          fun hall => p4 (forall_tail hall), fun hall => p5 (forall_tail hall),
          fun hall => p6 (forall_tail hall), fun hall => p7 (forall_tail hall),
          fun hall => p8 (forall_tail hall), fun hall => p9 (forall_tail hall)⟩
        simpa [List.filter_cons, hsym] using hfa
    · cases hxi : xmlGetPropInt c "value" <;> rw [hxi] at hp
      · cases hp
      · obtain ⟨p1, ⟨hs, hap, hfa⟩, p3, p4, p5, p6, p7, p8, p9⟩ := ih _ _ hp
        refine ⟨p1, ⟨hs, hap, ?_⟩, fun hall => p3 (forall_tail hall),
          fun hall => absurd htmin (hall c (List.mem_cons_self c rest)),
          fun hall => p5 (forall_tail hall), fun hall => p6 (forall_tail hall),
          fun hall => p7 (forall_tail hall), fun hall => p8 (forall_tail hall),
          fun hall => p9 (forall_tail hall)⟩
        simpa [List.filter_cons, htmin] using hfa
    · cases hxi : xmlGetPropInt c "value" <;> rw [hxi] at hp
      · cases hp
      · obtain ⟨p1, ⟨hs, hap, hfa⟩, p3, p4, p5, p6, p7, p8, p9⟩ := ih _ _ hp
        refine ⟨p1, ⟨hs, hap, ?_⟩, fun hall => p3 (forall_tail hall),
          fun hall => p4 (forall_tail hall),
          fun hall => absurd htmax (hall c (List.mem_cons_self c rest)),
          fun hall => p6 (forall_tail hall), fun hall => p7 (forall_tail hall),
          fun hall => p8 (forall_tail hall), fun hall => p9 (forall_tail hall)⟩
        simpa [List.filter_cons, htmax] using hfa
    · cases hxi : xmlGetPropInt c "value" <;> rw [hxi] at hp
      · cases hp
      · obtain ⟨p1, ⟨hs, hap, hfa⟩, p3, p4, p5, p6, p7, p8, p9⟩ := ih _ _ hp
        refine ⟨p1, ⟨hs, hap, ?_⟩, fun hall => p3 (forall_tail hall),
          fun hall => p4 (forall_tail hall), fun hall => p5 (forall_tail hall),
          fun hall => absurd hwnd (hall c (List.mem_cons_self c rest)),
          fun hall => p7 (forall_tail hall), fun hall => p8 (forall_tail hall),
          fun hall => p9 (forall_tail hall)⟩
        simpa [List.filter_cons, hwnd] using hfa
    · cases hxd : xmlGetPropDouble caps c "value" <;> rw [hxd] at hp
      · cases hp
      · obtain ⟨p1, ⟨hs, hap, hfa⟩, p3, p4, p5, p6, p7, p8, p9⟩ := ih _ _ hp
        refine ⟨p1, ⟨hs, hap, ?_⟩, fun hall => p3 (forall_tail hall),
          fun hall => p4 (forall_tail hall), fun hall => p5 (forall_tail hall),
          fun hall => p6 (forall_tail hall),
          fun hall => absurd hrn (hall c (List.mem_cons_self c rest)),
          fun hall => p8 (forall_tail hall), fun hall => p9 (forall_tail hall)⟩
        simpa [List.filter_cons, hrn] using hfa
    · cases hxi : xmlGetPropInt c "value" <;> rw [hxi] at hp
      · cases hp
      · obtain ⟨p1, ⟨hs, hap, hfa⟩, p3, p4, p5, p6, p7, p8, p9⟩ := ih _ _ hp
        refine ⟨p1, ⟨hs, hap, ?_⟩, fun hall => p3 (forall_tail hall),
          fun hall => p4 (forall_tail hall), fun hall => p5 (forall_tail hall),
          fun hall => p6 (forall_tail hall), fun hall => p7 (forall_tail hall),
          fun hall => absurd hhum (hall c (List.mem_cons_self c rest)),
          fun hall => p9 (forall_tail hall)⟩
        simpa [List.filter_cons, hhum] using hfa
    · cases hxi : xmlGetPropInt c "value" <;> rw [hxi] at hp
      · cases hp
      · obtain ⟨p1, ⟨hs, hap, hfa⟩, p3, p4, p5, p6, p7, p8, p9⟩ := ih _ _ hp
        refine ⟨p1, ⟨hs, hap, ?_⟩, fun hall => p3 (forall_tail hall),
          fun hall => p4 (forall_tail hall), fun hall => p5 (forall_tail hall),
          fun hall => p6 (forall_tail hall), fun hall => p7 (forall_tail hall),
          fun hall => p8 (forall_tail hall),
          fun hall => absurd hprs (hall c (List.mem_cons_self c rest))⟩
        simpa [List.filter_cons, hprs] using hfa
    · cases hph : wtr_forecast_parse_hour caps c u.date <;> rw [hph] at hp
      · cases hp
      · rename_i hr
        obtain ⟨p1, ⟨hs, hap, hfa⟩, p3, p4, p5, p6, p7, p8, p9⟩ := ih _ _ hp
        refine ⟨p1, ⟨hr :: hs, ?_, ?_⟩, fun hall => p3 (forall_tail hall),
          fun hall => p4 (forall_tail hall), fun hall => p5 (forall_tail hall),
          fun hall => p6 (forall_tail hall), fun hall => p7 (forall_tail hall),
          fun hall => p8 (forall_tail hall), fun hall => p9 (forall_tail hall)⟩
        · rw [hap]
          simp
        · rw [List.filter_cons_of_pos (by simp [hhr])]
          exact List.Forall₂.cons hph hfa
    · obtain ⟨p1, ⟨hs, hap, hfa⟩, p3, p4, p5, p6, p7, p8, p9⟩ := ih _ _ hp
      refine ⟨p1, ⟨hs, hap, ?_⟩, fun hall => p3 (forall_tail hall),
        fun hall => p4 (forall_tail hall), fun hall => p5 (forall_tail hall),
        fun hall => p6 (forall_tail hall), fun hall => p7 (forall_tail hall),
        fun hall => p8 (forall_tail hall), fun hall => p9 (forall_tail hall)⟩
      simpa [List.filter_cons, hhr] using hfa

/-- The day loop of `wtr_forecast_parse` collects exactly the parses of the
`day` children, in document order, appended to the accumulator. -/
theorem parseDays_spec (caps : Caps) :
    ∀ (l : List XNode) (acc out : List wtr_forecast_day),
      parseDays caps l acc = some out →
      ∃ ds, out = acc ++ ds ∧
        List.Forall₂ (fun n d => wtr_forecast_parse_day caps n = some d)
          (l.filter (fun c => c.name = "day")) ds := by
  intro l
  induction l with
  | nil =>
    intro acc out h
    cases h
    exact ⟨[], by simp, List.Forall₂.nil⟩
  | cons c rest ih =>
    intro acc out h
    simp only [parseDays] at h
    split_ifs at h with hc
    · obtain ⟨ds, rfl, hfa⟩ := ih _ _ h
      refine ⟨ds, rfl, ?_⟩
      simpa [List.filter_cons, hc] using hfa
    · cases hd : wtr_forecast_parse_day caps c <;> rw [hd] at h
      · cases h
      · rename_i day
        obtain ⟨ds, rfl, hfa⟩ := ih _ _ h
        refine ⟨day :: ds, by simp, ?_⟩
        rw [List.filter_cons_of_pos (by simpa using not_not.mp hc)]
        exact List.Forall₂.cons hd hfa

/-- Shape of a successfully parsed day: its `value` attribute was present,
`date` holds its parse, and `hours` are exactly the parses of the `hour`
children in document order; a field whose tag has no child stays
unassigned. -/
theorem wtr_forecast_parse_day_spec (caps : Caps) (xmlDay : XNode)
    (day : wtr_forecast_day) (h : wtr_forecast_parse_day caps xmlDay = some day) :
    (∃ v, xmlGetProp xmlDay "value" = some v ∧
      day.date = .val (parseDateTime v "%Y%m%d")) ∧
    List.Forall₂ (fun n hr => wtr_forecast_parse_hour caps n day.date = some hr)
      (xmlDay.children.filter (fun c => c.name = "hour")) day.hours ∧
    ((∀ c ∈ xmlDay.children, c.name ≠ "symbol") → day.weather = .undef) ∧
    ((∀ c ∈ xmlDay.children, c.name ≠ "tempmin") → day.temp_min = .undef) ∧
    ((∀ c ∈ xmlDay.children, c.name ≠ "tempmax") → day.temp_max = .undef) ∧
    ((∀ c ∈ xmlDay.children, c.name ≠ "wind") → day.wind_speed = .undef) ∧
    ((∀ c ∈ xmlDay.children, c.name ≠ "rain") → day.rain = .undef) ∧
    ((∀ c ∈ xmlDay.children, c.name ≠ "humidity") → day.humidity = .undef) ∧
    ((∀ c ∈ xmlDay.children, c.name ≠ "pressure") → day.pressure = .undef) := by
  unfold wtr_forecast_parse_day at h
  cases hv : xmlGetProp xmlDay "value" <;> rw [hv] at h
  · cases h
  · rename_i v
    obtain ⟨p1, ⟨hs, hap, hfa⟩, p3, p4, p5, p6, p7, p8, p9⟩ :=
      parseDayChildren_spec caps _ _ _ h
    have hdate : day.date = .val (parseDateTime v "%Y%m%d") := p1
    refine ⟨⟨v, rfl, hdate⟩, ?_, p3, p4, p5, p6, p7, p8, p9⟩
    rw [hdate]
    rw [show day.hours = hs from by simpa using hap]
    exact hfa

/-- Shape of a successfully parsed hour: its `value` attribute and the
enclosing day's date were present, `tstamp` holds their combination,
`wind_dir` is always assigned (NULL by initialisation or the `dir`
attribute by a `wind` child), and a field whose tag has no child stays
unassigned. -/
theorem wtr_forecast_parse_hour_spec (caps : Caps) (xmlHour : XNode)
    (dd : Field GDT) (hour : wtr_forecast_hour)
    (h : wtr_forecast_parse_hour caps xmlHour dd = some hour) :
    (∃ v dt, dd = .val dt ∧ xmlGetProp xmlHour "value" = some v ∧
      hour.tstamp = .val (some ⟨dt, v⟩)) ∧
    hour.wind_dir.isVal = true ∧
    ((∀ c ∈ xmlHour.children, c.name ≠ "symbol") → hour.weather = .undef) ∧
    ((∀ c ∈ xmlHour.children, c.name ≠ "temp") → hour.temp = .undef) ∧
    ((∀ c ∈ xmlHour.children, c.name ≠ "wind") →
      hour.wind_speed = .undef ∧ hour.wind_dir = .val none) ∧
    ((∀ c ∈ xmlHour.children, c.name ≠ "rain") → hour.rain = .undef) ∧
    ((∀ c ∈ xmlHour.children, c.name ≠ "humidity") → hour.humidity = .undef) ∧
    ((∀ c ∈ xmlHour.children, c.name ≠ "pressure") → hour.pressure = .undef) := by
  unfold wtr_forecast_parse_hour at h
  cases hv : xmlGetProp xmlHour "value" <;> rw [hv] at h
  · cases h
  · rename_i v
    cases dd with
    | undef => cases h
    | val dt =>
      obtain ⟨p1, p2, p3, p4, p5, p6, p7, p8⟩ := parseHourChildren_spec caps _ _ _ h
      exact ⟨⟨v, dt, rfl, rfl, p1⟩, p2 rfl, p3, p4, p5, p6, p7, p8⟩

/-- Successful top-level parse: the forecast's days are exactly the parses
of the location element's `day` children, in document order. -/
theorem wtr_forecast_parse_spec (caps : Caps) (content : CStr) (root location : XNode)
    (rest : List XNode) (f : wtr_forecast)
    (hread : caps.xmlRead content = some root)
    (hroot : root.name = "report")
    (hchild : root.children = location :: rest)
    (hloc : location.name = "location")
    (hok : wtr_forecast_parse caps content = .ok f) :
    List.Forall₂ (fun n d => wtr_forecast_parse_day caps n = some d)
      (location.children.filter (fun c => c.name = "day")) f.days := by
  unfold wtr_forecast_parse at hok
  rw [hread] at hok
  dsimp only at hok
  rw [if_neg (by simp [hroot])] at hok
  rw [hchild] at hok
  dsimp only at hok
  rw [if_neg (by simp [hloc])] at hok
  cases hpd : parseDays caps location.children [] <;> rw [hpd] at hok
  · cases hok
  · cases hok
    rename_i days
    obtain ⟨ds, hds, hfa⟩ := parseDays_spec caps _ _ _ hpd
    simpa [show days = ds from by simpa using hds] using hfa

/-! ## Claims C4, C6, C10, C5: the document parser -/

/-- C4. A document whose root element is not `report` parses to the
structural error `missingReport`; a document whose root is `report` but
whose first child is not a `location` element parses to the structural
error `missingLocation`. In both cases the result is an error value, so no
partial forecast is returned. (A `report` root with no children at all is
outside the claim: there the source dereferences the NULL first-child
pointer, `ParseResult.crash` in this model.) -/
theorem c4_structural_errors (caps : Caps) (content : CStr) (root : XNode)
    (hread : caps.xmlRead content = some root) :
    (root.name ≠ "report" → wtr_forecast_parse caps content = .err .missingReport) ∧
    (∀ location rest, root.name = "report" → root.children = location :: rest →
      location.name ≠ "location" →
      wtr_forecast_parse caps content = .err .missingLocation) := by
  constructor
  · intro hname
    unfold wtr_forecast_parse
    rw [hread]
    dsimp only
    rw [if_pos hname]
  · intro location rest hname hchild hloc
    unfold wtr_forecast_parse
    rw [hread]
    dsimp only
    rw [if_neg (by simp [hname]), hchild]
    dsimp only
    rw [if_pos hloc]

/-- Witness for C4: a root named `foo`, and a `report` root whose first
child is named `bar`. -/
theorem c4_structural_errors_witness :
    wtr_forecast_parse capsFix "noreport".toList = .err .missingReport ∧
    wtr_forecast_parse capsFix "nolocation".toList = .err .missingLocation :=
  ⟨(c4_structural_errors capsFix "noreport".toList docNoReport rfl).1 (by decide),
   (c4_structural_errors capsFix "nolocation".toList docNoLocation rfl).2
     ⟨"bar", [], []⟩ [] rfl rfl (by decide)⟩

theorem forall2_hours_lengths (caps : Caps) :
    ∀ (ns : List XNode) (ds : List wtr_forecast_day),
      List.Forall₂ (fun n d => wtr_forecast_parse_day caps n = some d) ns ds →
      ds.map (fun d => d.hours.length) =
        ns.map (fun n => (n.children.filter (fun c => c.name = "hour")).length) := by
  intro ns ds h
  induction h with
  | nil => rfl
  | cons hpair _ ih =>
    simp only [List.map_cons, ih, List.cons.injEq, and_true]
    exact (List.Forall₂.length_eq
      (wtr_forecast_parse_day_spec caps _ _ hpair).2.1).symm

/-- C6. On a successful parse, the forecast has exactly one day per `day`
child of the location element (children with other tags are skipped), in
document order, and each day has exactly one hour per `hour` child of the
corresponding `day` element, in document order: the lengths agree
position-wise. -/
theorem c6_day_and_hour_structure (caps : Caps) (content : CStr) (root location : XNode)
    (rest : List XNode) (f : wtr_forecast)
    (hread : caps.xmlRead content = some root)
    (hroot : root.name = "report")
    (hchild : root.children = location :: rest)
    (hloc : location.name = "location")
    (hok : wtr_forecast_parse caps content = .ok f) :
    f.days.length = (location.children.filter (fun c => c.name = "day")).length ∧
    f.days.map (fun d => d.hours.length) =
      (location.children.filter (fun c => c.name = "day")).map
        (fun n => (n.children.filter (fun c => c.name = "hour")).length) := by
  have hfa := wtr_forecast_parse_spec caps content root location rest f
    hread hroot hchild hloc hok
  exact ⟨hfa.length_eq.symm, forall2_hours_lengths caps _ _ hfa⟩

/-- Witness for C6: the five-day fixture whose first two days carry eight
hours each parses to five days with hour counts 8, 8, 0, 0, 0. -/
theorem c6_day_and_hour_structure_witness :
    ∃ f, wtr_forecast_parse capsFix "doc5".toList = .ok f ∧
      f.days.length = 5 ∧ f.days.map (fun d => d.hours.length) = [8, 8, 0, 0, 0] := by
  have hok : wtr_forecast_parse capsFix "doc5".toList =
      .ok ⟨(wtr_forecast_parse capsFix "doc5".toList).daysOf⟩ := rfl
  obtain ⟨h1, h2⟩ := c6_day_and_hour_structure capsFix "doc5".toList doc5 loc5 []
    ⟨(wtr_forecast_parse capsFix "doc5".toList).daysOf⟩ rfl rfl rfl rfl hok
  exact ⟨_, hok, h1.trans (by decide), h2.trans (by decide)⟩

/-- C10. When a `day` element has no child with a given known tag, the
corresponding field of the returned day record is never assigned at all
(`Field.undef`, modelling indeterminate `g_malloc` memory), and likewise for
an `hour` element; only `date` (for a day) and `tstamp` and `wind_dir` (for
an hour) are always assigned — `hours` is a plain list in this model
because the source initialises it to the empty list before anything else
can happen. -/
theorem c10_unassigned_fields :
    (∀ (caps : Caps) (xmlDay : XNode) (day : wtr_forecast_day),
      wtr_forecast_parse_day caps xmlDay = some day →
      day.date.isVal = true ∧
      ((∀ c ∈ xmlDay.children, c.name ≠ "symbol") → day.weather = .undef) ∧
      ((∀ c ∈ xmlDay.children, c.name ≠ "tempmin") → day.temp_min = .undef) ∧
      ((∀ c ∈ xmlDay.children, c.name ≠ "tempmax") → day.temp_max = .undef) ∧
      ((∀ c ∈ xmlDay.children, c.name ≠ "wind") → day.wind_speed = .undef) ∧
      ((∀ c ∈ xmlDay.children, c.name ≠ "rain") → day.rain = .undef) ∧
      ((∀ c ∈ xmlDay.children, c.name ≠ "humidity") → day.humidity = .undef) ∧
      ((∀ c ∈ xmlDay.children, c.name ≠ "pressure") → day.pressure = .undef)) ∧
    (∀ (caps : Caps) (xmlHour : XNode) (dd : Field GDT) (hour : wtr_forecast_hour),
      wtr_forecast_parse_hour caps xmlHour dd = some hour →
      hour.tstamp.isVal = true ∧ hour.wind_dir.isVal = true ∧
      ((∀ c ∈ xmlHour.children, c.name ≠ "symbol") → hour.weather = .undef) ∧
      ((∀ c ∈ xmlHour.children, c.name ≠ "temp") → hour.temp = .undef) ∧
      ((∀ c ∈ xmlHour.children, c.name ≠ "wind") →
        hour.wind_speed = .undef ∧ hour.wind_dir = .val none) ∧
      ((∀ c ∈ xmlHour.children, c.name ≠ "rain") → hour.rain = .undef) ∧
      ((∀ c ∈ xmlHour.children, c.name ≠ "humidity") → hour.humidity = .undef) ∧
      ((∀ c ∈ xmlHour.children, c.name ≠ "pressure") → hour.pressure = .undef)) := by
  constructor
  · intro caps xmlDay day h
    obtain ⟨⟨v, _, hdate⟩, _, p3, p4, p5, p6, p7, p8, p9⟩ :=
      wtr_forecast_parse_day_spec caps xmlDay day h
    exact ⟨by rw [hdate]; rfl, p3, p4, p5, p6, p7, p8, p9⟩
  · intro caps xmlHour dd hour h
    obtain ⟨⟨v, dt, _, _, hts⟩, p2, p3, p4, p5, p6, p7, p8⟩ :=
      wtr_forecast_parse_hour_spec caps xmlHour dd hour h
    exact ⟨by rw [hts]; rfl, p2, p3, p4, p5, p6, p7, p8⟩

/-- Witness for C10: a day element whose only child has an unknown tag
yields a day with unassigned `temp_min`, and a childless hour element
yields an hour whose `wind_dir` is the initial NULL. -/
theorem c10_unassigned_fields_witness :
    ∃ day hour, wtr_forecast_parse_day capsE dayU = some day ∧
      day.temp_min = .undef ∧
      wtr_forecast_parse_hour capsE wHour
        (.val ⟨"20180308".toList, "%Y%m%d"⟩) = some hour ∧
      hour.wind_dir = .val none := by
  refine ⟨_, _, rfl, ?_, rfl, ?_⟩
  · exact (c10_unassigned_fields.1 capsE dayU _ rfl).2.2.1 (by decide)
  · exact ((c10_unassigned_fields.2 capsE wHour
      (.val ⟨"20180308".toList, "%Y%m%d"⟩) _ rfl).2.2.2.2.1 (by decide)).2

/-- C5 (code-bug evidence). When the attribute is present but unparseable,
the accessors do return the sentinels (`INT_MIN`, `DBL_MIN`) and a
structurally valid document still parses, the sentinel embedded in the
result. But when the attribute is absent, `xmlGetProp` returns NULL; the
source hands it to `str2int`/`str2double`, which immediately read `s[0]`:
a NULL dereference (modelled `none`/`crash`), not the sentinel the claim
states. -/
theorem c5_sentinel_and_null_dereference :
    xmlGetPropInt ⟨"symbol", [("value", "abc".toList)], []⟩ "value" = some INT_MIN ∧
    xmlGetPropDouble capsE ⟨"rain", [("value", "abc".toList)], []⟩ "value" =
      some DBL_MIN ∧
    (wtr_forecast_parse capsFix "sentinel".toList).daysOf.map
      (fun d => d.weather) = [.val INT_MIN] ∧
    xmlGetPropInt ⟨"symbol", [], []⟩ "value" = none ∧
    xmlGetPropDouble capsE ⟨"rain", [], []⟩ "value" = none ∧
    wtr_forecast_parse capsFix "absent".toList = .crash := by
  refine ⟨rfl, rfl, by decide, rfl, rfl, rfl⟩

/-! ## Claims C8 and C9: location search -/

/-- C8. Every registry location is found, alone, by an exact-name search on
its own name; and for every query, a partial-name search returns exactly the
registry locations whose name contains the query case-insensitively
(`nameContainsCI`), in registry order (`List.filter` keeps order) and with
no side effects (the model is a pure function). -/
theorem c8_search_name_modes :
    (∀ L ∈ WTR_LOCATIONS,
      wtr_location_search L.name .WTR_SEARCH_LOCATION_EXACT_NAME = [L]) ∧
    (∀ q : CStr, wtr_location_search q .WTR_SEARCH_LOCATION_PARTIAL_NAME =
      WTR_LOCATIONS.filter (fun L => nameContainsCI L.name q)) := by
  constructor
  · decide
  · intro q
    unfold wtr_location_search
    apply List.filter_congr
    intro L hL
    have hself : L.name.map Char.toUpper = L.name := by
      simp only [WTR_LOCATIONS, List.mem_cons, List.not_mem_nil, or_false] at hL
      rcases hL with rfl | rfl | rfl | rfl | rfl <;> decide
    have hq : gUtf8Strup q = q.map Char.toUpper := rfl
    simp only [nameContainsCI, decide_eq_decide, hq, hself]

/-- Witness for C8: the exact-name search at ORVIETO and the partial-name
search at the query `ROM`, instances of the theorem at concrete inputs. -/
theorem c8_search_witness :
    wtr_location_search "ORVIETO".toList .WTR_SEARCH_LOCATION_EXACT_NAME = [ORVIETO] ∧
    wtr_location_search "ROM".toList .WTR_SEARCH_LOCATION_PARTIAL_NAME =
      WTR_LOCATIONS.filter (fun L => nameContainsCI L.name "ROM".toList) :=
  ⟨c8_search_name_modes.1 ORVIETO (by decide),
   c8_search_name_modes.2 "ROM".toList⟩

/-- C9. An exact-code search returns exactly the registry locations whose
code equals the query under plain string equality: the upper-casing the
source applies to the query before the comparison is invisible because the
registry codes are digit strings and case folding fixes every character of
a query that could match one. -/
theorem c9_search_exact_code (q : CStr) :
    wtr_location_search q .WTR_SEARCH_LOCATION_EXACT_CODE =
      WTR_LOCATIONS.filter (fun L => L.code = q) := by
  unfold wtr_location_search
  apply List.filter_congr
  intro L hL
  have hdig : ∀ ch ∈ L.code, 48 ≤ ch.toNat ∧ ch.toNat ≤ 57 := by
    simp only [WTR_LOCATIONS, List.mem_cons, List.not_mem_nil, or_false] at hL
    rcases hL with rfl | rfl | rfl | rfl | rfl <;> decide
  simp only [decide_eq_decide]
  exact map_gUpperChar_eq_digits q L.code hdig

/-- Witness for C9: the exact-code search at the ORVIETO code. -/
theorem c9_search_exact_code_witness :
    wtr_location_search "30625".toList .WTR_SEARCH_LOCATION_EXACT_CODE =
      WTR_LOCATIONS.filter (fun L => L.code = "30625".toList) :=
  c9_search_exact_code "30625".toList

/-! ## Claim C7: cache round-trip and day isolation -/

theorem snprintf1024_of_le {s : CStr} (h : s.length ≤ 1023) : snprintf1024 s = s :=
  List.take_of_length_le h

/-- Untruncated shape of `wtr_cache_temp_file` when the full path fits the
1024-byte buffers. -/
theorem wtr_cache_temp_file_eq (tmpDir today driver code : CStr)
    (h : (tmpDir ++ "/libweather".toList ++ '/' :: (today ++ '/' :: (driver ++ '-' :: code))).length ≤ 1023) :
    wtr_cache_temp_file tmpDir today driver code =
      tmpDir ++ "/libweather".toList ++ '/' :: (today ++ '/' :: (driver ++ '-' :: code)) := by
  have hlen := h
  simp only [List.length_append, List.length_cons] at hlen
  unfold wtr_cache_temp_file wtr_cache_dir_today wtr_cache_dir
  rw [snprintf1024_of_le (s := tmpDir ++ "/libweather".toList)
    (by simp only [List.length_append]; omega)]
  rw [snprintf1024_of_le (s := (tmpDir ++ "/libweather".toList) ++ '/' :: today)
    (by simp only [List.length_append, List.length_cons]; omega)]
  rw [snprintf1024_of_le
    (by simp only [List.length_append, List.length_cons]; omega)]
  simp [List.append_assoc]

/-- C7. Cache round-trip within one day partition: a `get` right after a
`set` of the same (source, location) key under the same day returns exactly
the bytes written. Day isolation: a `set` under day `d1` leaves every lookup
under a different day `d2` unchanged, because `get` only reads the path
derived from the current date. The length hypotheses say the two paths fit
the 1024-byte `g_snprintf` buffers (they always do for `/tmp`, an 8-digit
date and the registry's short codes). -/
theorem c7_cache_roundtrip_and_day_isolation (fs : Store) (tmpDir d1 d2 s k b : CStr)
    (h1 : (tmpDir ++ "/libweather".toList ++ '/' :: (d1 ++ '/' :: (s ++ '-' :: k))).length ≤ 1023)
    (h2 : (tmpDir ++ "/libweather".toList ++ '/' :: (d2 ++ '/' :: (s ++ '-' :: k))).length ≤ 1023)
    (hne : d1 ≠ d2) :
    wtr_cache_get (wtr_cache_set fs tmpDir d1 s k b) tmpDir d1 s k = some b ∧
    wtr_cache_get (wtr_cache_set fs tmpDir d1 s k b) tmpDir d2 s k =
      wtr_cache_get fs tmpDir d2 s k := by
  constructor
  · unfold wtr_cache_get wtr_cache_set
    rw [if_pos rfl]
  · unfold wtr_cache_get wtr_cache_set
    rw [if_neg]
    intro hpath
    rw [wtr_cache_temp_file_eq tmpDir d2 s k h2,
        wtr_cache_temp_file_eq tmpDir d1 s k h1] at hpath
    have h3 := List.append_cancel_left hpath
    have h4 : d2 ++ '/' :: (s ++ '-' :: k) = d1 ++ '/' :: (s ++ '-' :: k) := by
      injection h3
    exact hne (List.append_cancel_right h4).symm

/-- Witness for C7 at `/tmp`, days 20180308/20180309, the tiempo driver and
the ORVIETO code. -/
theorem c7_cache_witness :
    wtr_cache_get
      (wtr_cache_set (fun _ => none) "/tmp".toList "20180308".toList "tiempo".toList
        "30625".toList "<xml>".toList)
      "/tmp".toList "20180308".toList "tiempo".toList "30625".toList = some "<xml>".toList ∧
    wtr_cache_get
      (wtr_cache_set (fun _ => none) "/tmp".toList "20180308".toList "tiempo".toList
        "30625".toList "<xml>".toList)
      "/tmp".toList "20180309".toList "tiempo".toList "30625".toList =
      wtr_cache_get (fun _ => none) "/tmp".toList "20180309".toList "tiempo".toList
        "30625".toList :=
  c7_cache_roundtrip_and_day_isolation (fun _ => none) "/tmp".toList "20180308".toList
    "20180309".toList "tiempo".toList "30625".toList "<xml>".toList
    (by decide) (by decide) (by decide)

/-! ## Claims C1, C2, C3: the acquisition orchestrator -/

/-- C1. On a cache hit the orchestrator parses the cached bytes and returns
that parse result verbatim as the final outcome — also when it is a parse
failure — performing no HTTP request and leaving the cache unchanged. -/
theorem c1_cache_hit_parse_verbatim (env : Env) (code cached : CStr)
    (h : wtr_cache_get env.fs env.tmpDir env.today WTR_DRIVER_TIEMPO code = some cached) :
    wtr_tiempo_forecast_get env code =
      { result := (wtr_forecast_parse env.caps cached).toAcq
        fs := env.fs, httpCalls := 0 } := by
  unfold wtr_tiempo_forecast_get
  rw [h]

/-- Witness for C1: a cache holding unparseable bytes for the ORVIETO key
in an environment whose HTTP client would succeed; the outcome is the parse
failure, with no HTTP call and no cache write. -/
theorem c1_cache_hit_parse_verbatim_witness :
    wtr_tiempo_forecast_get envHit "30625".toList =
      { result := .parseFailed .syntaxError, fs := envHit.fs, httpCalls := 0 } :=
  c1_cache_hit_parse_verbatim envHit "30625".toList "junk".toList rfl

/-- Case analysis on the store after one acquisition: either it is
untouched, or the successfully parsed response body was written through
`wtr_cache_set`. -/
theorem forecast_get_fs_cases (env : Env) (code : CStr) :
    (wtr_tiempo_forecast_get env code).fs = env.fs ∨
    ∃ f, wtr_forecast_parse env.caps
        (env.http (wtr_tiempo_forecast_url code)).buffer = .ok f ∧
      (wtr_tiempo_forecast_get env code).fs =
        wtr_cache_set env.fs env.tmpDir env.today WTR_DRIVER_TIEMPO code
          (env.http (wtr_tiempo_forecast_url code)).buffer := by
  unfold wtr_tiempo_forecast_get
  cases hc : wtr_cache_get env.fs env.tmpDir env.today WTR_DRIVER_TIEMPO code
  · dsimp only
    split_ifs with h1 h2
    · exact Or.inl rfl
    · exact Or.inl rfl
    · cases hp : wtr_forecast_parse env.caps
          (env.http (wtr_tiempo_forecast_url code)).buffer
      · rename_i f
        exact Or.inr ⟨f, rfl, rfl⟩
      · exact Or.inl rfl
      · exact Or.inl rfl
  · exact Or.inl rfl

/-- C2. Whenever an acquisition changes the blob store at any path, the new
value at that path is bytes the parser parsed successfully during this very
acquisition: malformed bytes are never written, so every entry the
orchestrator writes parses successfully. -/
theorem c2_cache_write_only_parsed (env : Env) (code p : CStr)
    (h : (wtr_tiempo_forecast_get env code).fs p ≠ env.fs p) :
    ∃ b f, (wtr_tiempo_forecast_get env code).fs p = some b ∧
      wtr_forecast_parse env.caps b = .ok f := by
  rcases forecast_get_fs_cases env code with heq | ⟨f, hp, heq⟩
  · exact absurd (congrFun heq p) h
  · rw [heq] at h ⊢
    unfold wtr_cache_set at h ⊢
    by_cases hpe : p = wtr_cache_temp_file env.tmpDir env.today WTR_DRIVER_TIEMPO code
    · rw [if_pos hpe]
      exact ⟨_, f, rfl, hp⟩
    · rw [if_neg hpe] at h
      exact absurd rfl h

/-- Witness for C2: an empty-cache acquisition that succeeds end to end;
the entry written for the ORVIETO key is the response body, and it
parses. -/
theorem c2_cache_write_only_parsed_witness :
    ∃ b f, (wtr_tiempo_forecast_get envOk "30625".toList).fs
        (wtr_cache_temp_file "/tmp".toList "20180308".toList WTR_DRIVER_TIEMPO
          "30625".toList) = some b ∧
      wtr_forecast_parse envOk.caps b = .ok f :=
  c2_cache_write_only_parsed envOk "30625".toList
    (wtr_cache_temp_file "/tmp".toList "20180308".toList WTR_DRIVER_TIEMPO
      "30625".toList) (by decide)

/-- C3. On the network path (cache miss): a cURL transport failure, a
non-200 HTTP status, and a response body that fails to parse each produce
the corresponding explicit failure outcome, and in all three cases the blob
store is returned unchanged. -/
theorem c3_network_failures_nothing_cached (env : Env) (code : CStr)
    (hmiss : wtr_cache_get env.fs env.tmpDir env.today WTR_DRIVER_TIEMPO code = none) :
    ((env.http (wtr_tiempo_forecast_url code)).curl_code ≠ 0 →
      wtr_tiempo_forecast_get env code =
        { result := .transportError (env.http (wtr_tiempo_forecast_url code)).curl_code
          fs := env.fs, httpCalls := 1 }) ∧
    ((env.http (wtr_tiempo_forecast_url code)).curl_code = 0 →
      (env.http (wtr_tiempo_forecast_url code)).http_code ≠ 200 →
      wtr_tiempo_forecast_get env code =
        { result := .httpStatusError (env.http (wtr_tiempo_forecast_url code)).http_code
          fs := env.fs, httpCalls := 1 }) ∧
    (∀ e : ParseError,
      (env.http (wtr_tiempo_forecast_url code)).curl_code = 0 →
      (env.http (wtr_tiempo_forecast_url code)).http_code = 200 →
      wtr_forecast_parse env.caps (env.http (wtr_tiempo_forecast_url code)).buffer =
        .err e →
      wtr_tiempo_forecast_get env code =
        { result := .parseFailed e, fs := env.fs, httpCalls := 1 }) := by
  refine ⟨?_, ?_, ?_⟩
  · intro h1
    unfold wtr_tiempo_forecast_get
    rw [hmiss]
    dsimp only
    rw [if_pos h1]
  · intro h1 h2
    unfold wtr_tiempo_forecast_get
    rw [hmiss]
    dsimp only
    rw [if_neg (by simp [h1]), if_pos h2]
  · intro e h1 h2 hp
    unfold wtr_tiempo_forecast_get
    rw [hmiss]
    dsimp only
    rw [if_neg (by simp [h1]), if_neg (by simp [h2]), hp]

/-- Witness for C3: three empty-cache environments — cURL error 7, HTTP
status 500, and a 200 response whose body the XML capability rejects. -/
theorem c3_network_failures_witness :
    wtr_tiempo_forecast_get envCurl "30625".toList =
      { result := .transportError 7, fs := envCurl.fs, httpCalls := 1 } ∧
    wtr_tiempo_forecast_get envStatus "30625".toList =
      { result := .httpStatusError 500, fs := envStatus.fs, httpCalls := 1 } ∧
    wtr_tiempo_forecast_get envBadBody "30625".toList =
      { result := .parseFailed .syntaxError, fs := envBadBody.fs, httpCalls := 1 } :=
  ⟨(c3_network_failures_nothing_cached envCurl "30625".toList rfl).1 (by decide),
   (c3_network_failures_nothing_cached envStatus "30625".toList rfl).2.1 rfl (by decide),
   (c3_network_failures_nothing_cached envBadBody "30625".toList rfl).2.2
     .syntaxError rfl rfl rfl⟩

end Wtrc
